import Mathlib

/-!
Shallow embedding of the job lifecycle core of `runpod/serverless/modules/rp_job.py`:
the synchronous/asynchronous executor `run_job`, the streaming executor
`run_job_generator`, and the polling acquirer `get_job`.

Python JSON-like values are modelled by the inductive `Value` (numbers restricted to
integers; no claim involves floats).  A Python dict is an association list with the
Python-visible operations `lookupKey` (dict.get / dict.pop lookup part) and `eraseKey`
(the removal part of dict.pop); Python dicts never hold duplicate keys, and the claims
quantify only over dicts that a Python handler can actually return.

A raised Python exception (anything caught by `except Exception`) is the record `Exc`
carrying `str(type(err))`, `str(err)` and `traceback.format_exc()`.  A handler call
together with the optional `await` of its result (rp_job.py lines 115-116) is one
resolution step `Value → Except Exc Value`: `.ok` is the resolved return value, `.error`
an exception raised during invocation or awaiting.

Process context read by the diagnostic payload builder (RUNPOD_POD_HOSTNAME,
RUNPOD_POD_ID, runpod version) is the record `Env`.
-/

namespace RpJob

/-- JSON-like Python value. -/
inductive Value where
  | null : Value
  | bool : Bool → Value
  | int : Int → Value
  | str : String → Value
  | arr : List Value → Value
  | dict : List (String × Value) → Value

/-- Python exception data as observed by the except blocks of rp_job.py:
`str(type(err))`, `str(err)`, `traceback.format_exc()`. -/
structure Exc where
  ty : String
  msg : String
  trace : String
  deriving DecidableEq, Repr

/-- Process context read when building the diagnostic payload (rp_job.py lines 147-149). -/
structure Env where
  hostname : String
  workerId : String
  runpodVersion : String
  deriving DecidableEq, Repr

/-- Result envelope built by `run_job`.  The source builds a dict holding at most the
keys `output`, `error`, `stopPod`; per the code `stopPod` is only ever set to `True`,
so absence is modelled as `false`. -/
structure JobResult where
  output : Option Value := none
  error : Option Value := none
  stopPod : Bool := false

/-- Python truthiness of a value (`if error_msg:` etc.). -/
def Value.truthy : Value → Bool
  | .null => false
  | .bool b => b
  | .int n => n != 0
  | .str s => s != ""
  | .arr vs => !vs.isEmpty
  | .dict es => !es.isEmpty

/-- Truthiness of `dict.pop(key, None)`: `None` (absent key) is falsy. -/
def pyTruthy : Option Value → Bool
  | none => false
  | some v => v.truthy

/-- Lookup of a key in a Python dict (first binding; Python dicts have unique keys). -/
def lookupKey : List (String × Value) → String → Option Value
  | [], _ => none
  | (k, v) :: es, key => if k = key then some v else lookupKey es key

/-- Removal part of `dict.pop(key, None)`: drop the bindings of `key`. -/
def eraseKey : List (String × Value) → String → List (String × Value)
  | [], _ => []
  | (k, v) :: es, key => if k = key then eraseKey es key else (k, v) :: eraseKey es key

/-- Python `dict.get(key, None)` as used by `get_job`: absent key and explicit
JSON null are both `None`. -/
def pyGet (es : List (String × Value)) (key : String) : Value :=
  (lookupKey es key).getD Value.null

/-- Key presence in a dict (successful `job["id"]` subscript). -/
def hasKey (es : List (String × Value)) (key : String) : Bool :=
  (lookupKey es key).isSome

/-- JSON string escaping for `json.dumps` (the characters that need a backslash). -/
def escapeJsonChar (c : Char) : String :=
  if c = '"' then "\\\""
  else if c = '\\' then "\\\\"
  else if c = '\n' then "\\n"
  else if c = '\t' then "\\t"
  else if c = '\r' then "\\r"
  else String.singleton c

/-- JSON escaping of a whole string. -/
def escapeJsonString (s : String) : String :=
  String.join (s.data.map escapeJsonChar)

mutual

/-- Serialization of a value in the manner of Python `json.dumps` with default
separators (object braces written via escapes only to keep them out of code). -/
def jsonDumps : Value → String
  | .null => "null"
  | .bool b => cond b "true" "false"
  | .int n => toString n
  | .str s => "\"" ++ escapeJsonString s ++ "\""
  | .arr vs => "[" ++ jsonDumpsArr vs ++ "]"
  | .dict es => "\x7b" ++ jsonDumpsObj es ++ "\x7d"

/-- Comma-separated serialization of array elements. -/
def jsonDumpsArr : List Value → String
  | [] => ""
  | [v] => jsonDumps v
  | v :: vs => jsonDumps v ++ ", " ++ jsonDumpsArr vs

/-- Comma-separated serialization of object entries. -/
def jsonDumpsObj : List (String × Value) → String
  | [] => ""
  | [(k, v)] => "\"" ++ escapeJsonString k ++ "\": " ++ jsonDumps v
  | (k, v) :: es => "\"" ++ escapeJsonString k ++ "\": " ++ jsonDumps v ++ ", " ++ jsonDumpsObj es

end

/-- Diagnostic payload built in the except block of `run_job` (rp_job.py lines 143-150),
in source order. -/
def error_info (env : Env) (err : Exc) : List (String × Value) :=
  [("error_type", Value.str err.ty),
   ("error_message", Value.str err.msg),
   ("error_traceback", Value.str err.trace),
   ("hostname", Value.str env.hostname),
   ("worker_id", Value.str env.workerId),
   ("runpod_version", Value.str env.runpodVersion)]

/-- Envelope produced by the except block of `run_job` (line 154):
`run_result = ⟨"error": json.dumps(error_info)⟩`. -/
def exception_result (env : Env) (err : Exc) : JobResult :=
  { output := none, error := some (Value.str (jsonDumps (Value.dict (error_info env err)))), stopPod := false }

/-- Normalization of the resolved handler return value (rp_job.py lines 120-135).
A dict has `error` and `refresh_worker` popped; `error` is surfaced only when truthy
(`if error_msg:`), a truthy `refresh_worker` sets `stopPod`.  The `bool` branch and the
final else branch of the source are identical (`run_result = ⟨"output": job_output⟩`),
so every non-dict value is wrapped directly as output. -/
def normalize_output (job_output : Value) : JobResult :=
  match job_output with
  | .dict entries =>
    let error_msg := lookupKey entries "error"
    let rest1 := eraseKey entries "error"
    let refresh_worker := lookupKey rest1 "refresh_worker"
    let rest2 := eraseKey rest1 "refresh_worker"
    { output := some (Value.dict rest2),
      error := if pyTruthy error_msg then error_msg else none,
      stopPod := pyTruthy refresh_worker }
  | v => { output := some v, error := none, stopPod := false }

/-- Empty-output elision (rp_job.py lines 137-138): the `output` key is popped exactly
when its value compares Python-equal to `⟨⟩`, i.e. is the empty dict (no other Python
value compares equal to an empty dict). -/
def drop_empty_output (r : JobResult) : JobResult :=
  match r.output with
  | some (Value.dict []) => { r with output := none }
  | _ => r

/-- Embedding of `run_job` (rp_job.py lines 106-159).  The result is `Except.error`
exactly when the function raises past its boundary: line 111 formats `job["id"]`
before the try block, so a job dict without an `id` key raises a KeyError that is
never caught (every later use of `job["id"]` is only reached with `id` present).
Inside the try block, a handler exception or an exception from the size check
(`check_return_size`, an external collaborator modelled as a fallible parameter per
its spec: it may raise when the envelope exceeds a configured size limit) is captured
into `exception_result`. -/
def run_job (env : Env) (check_return_size : JobResult → Except Exc Unit)
    (handler : Value → Except Exc Value) (job : List (String × Value)) :
    Except String JobResult :=
  if hasKey job "id" then
    Except.ok <|
      match handler (Value.dict job) with
      | .error err => exception_result env err
      | .ok job_output =>
        let run_result := drop_empty_output (normalize_output job_output)
        match check_return_size run_result with
        | .ok _ => run_result
        | .error err => exception_result env err
  else
    Except.error "KeyError: id"

/-- Error envelope yielded by the except block of `run_job_generator` (rp_job.py
line 179): `⟨"error": f"handler: ⟨str(err)⟩ \ntraceback: ⟨traceback.format_exc()⟩"⟩`. -/
def stream_error_envelope (e : Exc) : Value :=
  Value.dict [("error", Value.str ("handler: " ++ e.msg ++ " \ntraceback: " ++ e.trace))]

/-- Embedding of `run_job_generator` (rp_job.py lines 162-181).  The producer obtained
from the generator handler is abstracted by its iteration outcome: the partial values
it yields in order, then either normal exhaustion (`none`) or an exception (`some e`);
the synchronous and asynchronous iteration branches of the source are identical under
this abstraction.  The first component of the result is the list of envelopes the generator
delivers to its consumer in order; the second component is the exception escaping the
generator, if any.  Both the except-block log (line 178) and the finally-block log
(line 181) subscript `job["id"]`, so on a job without an `id` key a KeyError escapes
after the already-delivered items instead of the error envelope being yielded. -/
def run_job_generator (handler : Value → List Value × Option Exc)
    (job : List (String × Value)) : List Value × Option String :=
  let produced := handler (Value.dict job)
  let items := produced.1.map (fun v => Value.dict [("output", v)])
  match produced.2 with
  | none => (items, if hasKey job "id" then none else some "KeyError: id")
  | some e =>
    if hasKey job "id" then (items ++ [stream_error_envelope e], none)
    else (items, some "KeyError: id")

/-- Check whether a value is JSON null (Python `None`). -/
def isNull : Value → Bool
  | .null => true
  | _ => false

/-- Outcome of one iteration of the polling loop of `get_job` over a single response. -/
inductive StepResult where
  | noJob : StepResult
  | job : List (String × Value) → StepResult
  | crash : String → StepResult

/-- One poll response: an HTTP response with its status and (for status 200) the
outcome of parsing its body as JSON, or a transport error raised by the request
itself. -/
inductive PollResponse where
  | http : Nat → Except Exc Value → PollResponse
  | netError : Exc → PollResponse

/-- Classification of a single poll response by the loop body of `get_job` (rp_job.py
lines 51-97).  Status 204, 400 and any other non-200 status, a transport error, a body
that fails to parse, and a parsed object missing `id` or `input` (or holding null
there, since `next_job.get(...)` returns `None` for both) all leave `next_job` unset:
the loop retries or, without retry, returns absent.  A 200 body parsing to JSON null
leaves `next_job` as `None` as well (the subsequent `.get` raises AttributeError,
which is caught).  A 200 body parsing to a non-null non-object leaves `next_job`
non-`None`, so the loop exits and line 97 subscripts it with the string `"id"`,
raising an uncaught TypeError: the function crashes. -/
def poll_step : PollResponse → StepResult
  | .netError _ => .noJob
  | .http status body =>
    if status = 204 then .noJob
    else if status = 400 then .noJob
    else if status ≠ 200 then .noJob
    else
      match body with
      | .error _ => .noJob
      | .ok Value.null => .noJob
      | .ok (Value.dict es) =>
        if isNull (pyGet es "id") || isNull (pyGet es "input") then .noJob else .job es
      | .ok _ => .crash "TypeError: job body is not an object"

/-- Embedding of `get_job` (rp_job.py lines 39-103) over a finite trace of poll
responses.  Returns the acquired job (or `none`) together with the number of poll
requests issued; exhausting the trace while still polling returns `none` (the real
loop would keep waiting for further responses).  With `retry = false` every
non-yielding response returns absent immediately.  `Except.error` is the uncaught
TypeError of `poll_step`.  The JobTracker registration `job_list.add_job` (line 100)
is a side effect on shared worker state and is not modelled; no property below
depends on it. -/
def get_job (retry : Bool) : List PollResponse → Except String (Option (List (String × Value)) × Nat)
  | [] => Except.ok (none, 0)
  | r :: rest =>
    match poll_step r with
    | .job es => Except.ok (some es, 1)
    | .crash msg => Except.error msg
    | .noJob =>
      if retry then
        match get_job retry rest with
        | Except.ok (res, n) => Except.ok (res, n + 1)
        | Except.error msg => Except.error msg
      else Except.ok (none, 1)

/-- Concrete process context used by the witnesses. -/
def env0 : Env := { hostname := "host0", workerId := "worker0", runpodVersion := "1.6.2" }

/-- Size-policy collaborator that accepts every envelope. -/
def checkOk : JobResult → Except Exc Unit := fun _ => Except.ok ()

/-- Concrete well-formed job dict. -/
def job0 : List (String × Value) := [("id", Value.str "job-0"), ("input", Value.int 5)]

/-- Concrete exception. -/
def exc0 : Exc := { ty := "ValueError", msg := "boom", trace := "trace-0" }

/-- Characterization of the null test used by job validation. -/
theorem isNull_eq_true (v : Value) : isNull v = true ↔ v = Value.null := by
  cases v <;> simp [isNull]

/-- Popping a key removes every binding of that key. -/
theorem lookupKey_eraseKey_self (es : List (String × Value)) (k : String) :
    lookupKey (eraseKey es k) k = none := by
  induction es with
  | nil => rfl
  | cons p es ih =>
    obtain ⟨a, v⟩ := p
    by_cases h : a = k <;> simp [eraseKey, lookupKey, h, ih]

/-- Popping a key leaves the bindings of every other key unchanged. -/
theorem lookupKey_eraseKey_ne (es : List (String × Value)) (k k2 : String) (h : k2 ≠ k) :
    lookupKey (eraseKey es k) k2 = lookupKey es k2 := by
  induction es with
  | nil => rfl
  | cons p es ih =>
    obtain ⟨a, v⟩ := p
    by_cases ha : a = k
    · simp [eraseKey, lookupKey, ha, Ne.symm h, ih]
    · simp only [eraseKey, if_neg ha, lookupKey]
      split <;> simp [ih]

/-- Empty-output elision never touches the error field. -/
theorem drop_empty_output_error (r : JobResult) : (drop_empty_output r).error = r.error := by
  unfold drop_empty_output
  split <;> rfl

/-- Empty-output elision never touches the stopPod flag. -/
theorem drop_empty_output_stopPod (r : JobResult) : (drop_empty_output r).stopPod = r.stopPod := by
  unfold drop_empty_output
  split <;> rfl

/-- Unfolding of normalization on a dict return value. -/
theorem normalize_output_dict (entries : List (String × Value)) :
    normalize_output (Value.dict entries) =
      { output := some (Value.dict (eraseKey (eraseKey entries "error") "refresh_worker")),
        error := if pyTruthy (lookupKey entries "error") then lookupKey entries "error" else none,
        stopPod := pyTruthy (lookupKey (eraseKey entries "error") "refresh_worker") } := rfl

/-- Empty-output elision drops an output that is the empty dict. -/
theorem drop_empty_output_dict_nil (e : Option Value) (s : Bool) :
    drop_empty_output { output := some (Value.dict []), error := e, stopPod := s } =
      { output := none, error := e, stopPod := s } := rfl

/-- Empty-output elision keeps an output that is a non-empty dict. -/
theorem drop_empty_output_dict_cons (p : String × Value) (l : List (String × Value))
    (e : Option Value) (s : Bool) :
    drop_empty_output { output := some (Value.dict (p :: l)), error := e, stopPod := s } =
      { output := some (Value.dict (p :: l)), error := e, stopPod := s } := rfl

/-- C1: for every handler, every size check and every job carrying an `id` key (the Job
invariant of the data model), `run_job` returns a `JobResult` and never raises: every
exception from handler invocation, awaiting, normalization or the size check is
captured into the returned envelope. -/
theorem C1_run_job_never_raises (env : Env) (check : JobResult → Except Exc Unit)
    (handler : Value → Except Exc Value) (job : List (String × Value))
    (hid : hasKey job "id" = true) :
    ∃ r : JobResult, run_job env check handler job = Except.ok r := by
  simp only [run_job, hid, if_true]
  exact ⟨_, rfl⟩

/-- Witness for C1 at a concrete handler, size check and job. -/
theorem C1_run_job_never_raises_witness :
    hasKey job0 "id" = true ∧
      ∃ r : JobResult, run_job env0 checkOk (fun _ => Except.ok Value.null) job0 = Except.ok r :=
  ⟨rfl, C1_run_job_never_raises env0 checkOk (fun _ => Except.ok Value.null) job0 rfl⟩

/-- C10: `run_job` formats `job["id"]` before entering its exception-capture block, so
on a job dict without an `id` key it raises a key-lookup error instead of returning a
`JobResult`; the never-raises contract holds only under that precondition. -/
theorem C10_run_job_requires_id (env : Env) (check : JobResult → Except Exc Unit)
    (handler : Value → Except Exc Value) (job : List (String × Value))
    (hid : lookupKey job "id" = none) :
    run_job env check handler job = Except.error "KeyError: id" := by
  simp [run_job, hasKey, hid]

/-- Witness for C10 at a concrete job lacking `id`. -/
theorem C10_run_job_requires_id_witness :
    lookupKey [("input", Value.int 5)] "id" = none ∧
      run_job env0 checkOk (fun _ => Except.ok Value.null) [("input", Value.int 5)] =
        Except.error "KeyError: id" :=
  ⟨rfl, C10_run_job_requires_id env0 checkOk (fun _ => Except.ok Value.null)
    [("input", Value.int 5)] rfl⟩

/-- C4: a handler that raises yields an envelope with no output whose error field is
the serialized diagnostic record holding exactly the fields error_type, error_message,
error_traceback, hostname, worker_id, runpod_version. -/
theorem C4_exception_diagnostic (env : Env) (check : JobResult → Except Exc Unit)
    (handler : Value → Except Exc Value) (job : List (String × Value)) (err : Exc)
    (hid : hasKey job "id" = true)
    (hh : handler (Value.dict job) = Except.error err) :
    run_job env check handler job = Except.ok (exception_result env err) ∧
      (exception_result env err).output = none ∧
      (exception_result env err).error =
        some (Value.str (jsonDumps (Value.dict (error_info env err)))) ∧
      (error_info env err).map Prod.fst =
        ["error_type", "error_message", "error_traceback",
         "hostname", "worker_id", "runpod_version"] := by
  refine ⟨?_, rfl, rfl, rfl⟩
  simp [run_job, hid, hh]

/-- Witness for C4 at a concrete raising handler. -/
theorem C4_exception_diagnostic_witness :
    hasKey job0 "id" = true ∧
      ((fun _ => Except.error exc0 : Value → Except Exc Value) (Value.dict job0) =
        Except.error exc0) ∧
      (run_job env0 checkOk (fun _ => Except.error exc0) job0 =
          Except.ok (exception_result env0 exc0) ∧
        (exception_result env0 exc0).output = none ∧
        (exception_result env0 exc0).error =
          some (Value.str (jsonDumps (Value.dict (error_info env0 exc0)))) ∧
        (error_info env0 exc0).map Prod.fst =
          ["error_type", "error_message", "error_traceback",
           "hostname", "worker_id", "runpod_version"]) :=
  ⟨rfl, rfl, C4_exception_diagnostic env0 checkOk (fun _ => Except.error exc0) job0 exc0 rfl rfl⟩

/-- C2 counterexample: a handler returning `None` yields an envelope whose output key
is present and bound to null — not an envelope with the output key absent as claimed.
Only the empty dict compares Python-equal to `⟨⟩` at line 137, so `⟨"output": None⟩`
keeps its output key. -/
theorem C2_counterexample :
    run_job env0 checkOk (fun _ => Except.ok Value.null) job0 =
        Except.ok { output := some Value.null, error := none, stopPod := false } ∧
      some Value.null ≠ (none : Option Value) :=
  ⟨rfl, by simp⟩

/-- C2 amended: a handler returning `None` yields an envelope whose output key is
present with value null and whose error key is absent — a valid terminal state, not an
error. -/
theorem C2_none_output_kept (env : Env) (check : JobResult → Except Exc Unit)
    (handler : Value → Except Exc Value) (job : List (String × Value))
    (hid : hasKey job "id" = true)
    (hh : handler (Value.dict job) = Except.ok Value.null)
    (hcheck : check { output := some Value.null, error := none, stopPod := false } =
      Except.ok ()) :
    run_job env check handler job =
      Except.ok { output := some Value.null, error := none, stopPod := false } := by
  have h1 : drop_empty_output (normalize_output Value.null) =
      { output := some Value.null, error := none, stopPod := false } := rfl
  simp [run_job, hid, hh, h1, hcheck]

/-- Witness for the amended C2 at a concrete handler returning null. -/
theorem C2_none_output_kept_witness :
    hasKey job0 "id" = true ∧
      checkOk { output := some Value.null, error := none, stopPod := false } = Except.ok () ∧
      run_job env0 checkOk (fun _ => Except.ok Value.null) job0 =
        Except.ok { output := some Value.null, error := none, stopPod := false } :=
  ⟨rfl, rfl, C2_none_output_kept env0 checkOk (fun _ => Except.ok Value.null) job0 rfl rfl rfl⟩

/-- C8: a handler returning the empty dict yields an envelope in which both the output
key and the error key are absent. -/
theorem C8_empty_dict_elided (env : Env) (check : JobResult → Except Exc Unit)
    (handler : Value → Except Exc Value) (job : List (String × Value))
    (hid : hasKey job "id" = true)
    (hh : handler (Value.dict job) = Except.ok (Value.dict []))
    (hcheck : check { output := none, error := none, stopPod := false } = Except.ok ()) :
    run_job env check handler job =
      Except.ok { output := none, error := none, stopPod := false } := by
  have h1 : drop_empty_output (normalize_output (Value.dict [])) =
      { output := none, error := none, stopPod := false } := rfl
  simp [run_job, hid, hh, h1, hcheck]

/-- Witness for C8 at a concrete handler returning the empty dict. -/
theorem C8_empty_dict_elided_witness :
    hasKey job0 "id" = true ∧
      checkOk { output := none, error := none, stopPod := false } = Except.ok () ∧
      run_job env0 checkOk (fun _ => Except.ok (Value.dict [])) job0 =
        Except.ok { output := none, error := none, stopPod := false } :=
  ⟨rfl, rfl, C8_empty_dict_elided env0 checkOk (fun _ => Except.ok (Value.dict [])) job0
    rfl rfl rfl⟩

/-- C3 counterexample: a dict return value with a falsy `error` entry (here the empty
string) has the entry removed yet the error field of the envelope left absent, because
line 126 guards on truthiness (`if error_msg:`), not on presence — contradicting the
claim that the error field is set to the value of the extracted entry whenever an error
entry is present. -/
theorem C3_counterexample :
    run_job env0 checkOk
        (fun _ => Except.ok (Value.dict [("a", Value.int 1), ("error", Value.str "")])) job0 =
        Except.ok { output := some (Value.dict [("a", Value.int 1)]), error := none, stopPod := false } ∧
      (none : Option Value) ≠ some (Value.str "") :=
  ⟨rfl, by simp⟩

/-- C3 amended: a dict return value containing an `error` entry has the `error` and
`refresh_worker` entries removed, the remaining keys become the output (the output key
being omitted when nothing remains), and the error field of the envelope is set to the
value of the extracted entry exactly when that value is truthy; in particular a handler
returning the dict binding only `"error"` to `"x"` yields exactly that error with no
output key. -/
theorem C3_error_key_extraction (env : Env) (check : JobResult → Except Exc Unit)
    (handler : Value → Except Exc Value) (job : List (String × Value))
    (entries : List (String × Value)) (e : Value)
    (hid : hasKey job "id" = true)
    (hh : handler (Value.dict job) = Except.ok (Value.dict entries))
    (he : lookupKey entries "error" = some e)
    (hcheck : check (drop_empty_output (normalize_output (Value.dict entries))) =
      Except.ok ()) :
    (∃ r : JobResult,
      run_job env check handler job = Except.ok r ∧
      r.error = (if e.truthy then some e else none) ∧
      r.stopPod = pyTruthy (lookupKey entries "refresh_worker") ∧
      (eraseKey (eraseKey entries "error") "refresh_worker" = [] → r.output = none) ∧
      (∀ p l, eraseKey (eraseKey entries "error") "refresh_worker" = p :: l →
        r.output = some (Value.dict (p :: l)))) ∧
    run_job env0 checkOk (fun _ => Except.ok (Value.dict [("error", Value.str "x")])) job0 =
      Except.ok { output := none, error := some (Value.str "x"), stopPod := false } := by
  refine ⟨⟨drop_empty_output (normalize_output (Value.dict entries)), ?_, ?_, ?_, ?_, ?_⟩, rfl⟩
  · simp [run_job, hid, hh, hcheck]
  · rw [drop_empty_output_error, normalize_output_dict]
    simp [he, pyTruthy]
  · rw [drop_empty_output_stopPod, normalize_output_dict]
    simp [lookupKey_eraseKey_ne entries "error" "refresh_worker" (by decide)]
  · intro h0
    rw [normalize_output_dict, h0, drop_empty_output_dict_nil]
  · intro p l hpl
    rw [normalize_output_dict, hpl, drop_empty_output_dict_cons]

/-- Witness for the amended C3 at the handler returning the dict binding `"error"`
to `"x"`. -/
theorem C3_error_key_extraction_witness :
    hasKey job0 "id" = true ∧
      lookupKey [("error", Value.str "x")] "error" = some (Value.str "x") ∧
      ((∃ r : JobResult,
        run_job env0 checkOk (fun _ => Except.ok (Value.dict [("error", Value.str "x")])) job0 =
          Except.ok r ∧
        r.error = (if (Value.str "x").truthy then some (Value.str "x") else none) ∧
        r.stopPod = pyTruthy (lookupKey [("error", Value.str "x")] "refresh_worker") ∧
        (eraseKey (eraseKey [("error", Value.str "x")] "error") "refresh_worker" = [] →
          r.output = none) ∧
        (∀ p l,
          eraseKey (eraseKey [("error", Value.str "x")] "error") "refresh_worker" = p :: l →
          r.output = some (Value.dict (p :: l)))) ∧
      run_job env0 checkOk (fun _ => Except.ok (Value.dict [("error", Value.str "x")])) job0 =
        Except.ok { output := none, error := some (Value.str "x"), stopPod := false }) :=
  ⟨rfl, rfl, C3_error_key_extraction env0 checkOk
    (fun _ => Except.ok (Value.dict [("error", Value.str "x")])) job0
    [("error", Value.str "x")] (Value.str "x") rfl rfl rfl rfl⟩

/-- C9: a dict return value with a truthy `refresh_worker` entry sets stopPod in the
envelope and the entry is excluded from the output; in particular a handler returning
the dict binding `"foo"` to 1 and `"refresh_worker"` to true yields exactly the output
binding `"foo"` to 1 with stopPod set. -/
theorem C9_refresh_worker_stops_pod (env : Env) (check : JobResult → Except Exc Unit)
    (handler : Value → Except Exc Value) (job : List (String × Value))
    (entries : List (String × Value)) (v : Value)
    (hid : hasKey job "id" = true)
    (hh : handler (Value.dict job) = Except.ok (Value.dict entries))
    (hrw : lookupKey entries "refresh_worker" = some v)
    (htr : v.truthy = true)
    (hcheck : check (drop_empty_output (normalize_output (Value.dict entries))) =
      Except.ok ()) :
    (∃ r : JobResult,
      run_job env check handler job = Except.ok r ∧
      r.stopPod = true ∧
      ∀ out, r.output = some (Value.dict out) → lookupKey out "refresh_worker" = none) ∧
    run_job env0 checkOk
        (fun _ => Except.ok (Value.dict [("foo", Value.int 1), ("refresh_worker", Value.bool true)]))
        job0 =
      Except.ok { output := some (Value.dict [("foo", Value.int 1)]), error := none, stopPod := true } := by
  refine ⟨⟨drop_empty_output (normalize_output (Value.dict entries)), ?_, ?_, ?_⟩, rfl⟩
  · simp [run_job, hid, hh, hcheck]
  · rw [drop_empty_output_stopPod, normalize_output_dict]
    rw [show (lookupKey (eraseKey entries "error") "refresh_worker") =
        lookupKey entries "refresh_worker" from
      lookupKey_eraseKey_ne entries "error" "refresh_worker" (by decide), hrw]
    simp [pyTruthy, htr]
  · intro out hout
    rw [normalize_output_dict] at hout
    rcases hrest : eraseKey (eraseKey entries "error") "refresh_worker" with _ | ⟨p, l⟩
    · rw [hrest, drop_empty_output_dict_nil] at hout
      exact absurd hout (by simp)
    · rw [hrest, drop_empty_output_dict_cons] at hout
      obtain rfl : out = p :: l := by
        have h2 := Option.some.inj hout
        cases h2
        rfl
      rw [← hrest]
      exact lookupKey_eraseKey_self _ _

/-- Witness for C9 at the handler returning the dict binding `"foo"` to 1 and
`"refresh_worker"` to true. -/
theorem C9_refresh_worker_stops_pod_witness :
    hasKey job0 "id" = true ∧
      lookupKey [("foo", Value.int 1), ("refresh_worker", Value.bool true)] "refresh_worker" =
        some (Value.bool true) ∧
      (Value.bool true).truthy = true ∧
      ((∃ r : JobResult,
        run_job env0 checkOk
            (fun _ => Except.ok
              (Value.dict [("foo", Value.int 1), ("refresh_worker", Value.bool true)])) job0 =
          Except.ok r ∧
        r.stopPod = true ∧
        ∀ out, r.output = some (Value.dict out) → lookupKey out "refresh_worker" = none) ∧
      run_job env0 checkOk
          (fun _ => Except.ok
            (Value.dict [("foo", Value.int 1), ("refresh_worker", Value.bool true)])) job0 =
        Except.ok { output := some (Value.dict [("foo", Value.int 1)]), error := none, stopPod := true }) :=
  ⟨rfl, rfl, rfl, C9_refresh_worker_stops_pod env0 checkOk
    (fun _ => Except.ok (Value.dict [("foo", Value.int 1), ("refresh_worker", Value.bool true)]))
    job0 [("foo", Value.int 1), ("refresh_worker", Value.bool true)] (Value.bool true)
    rfl rfl rfl rfl rfl⟩

/-- C5: a producer that yields a list of partials and then raises makes the streaming
executor deliver exactly one output envelope per partial, in production order,
followed by exactly one terminal error envelope, and nothing after it; in particular a
producer yielding 1, 2, 3 and then raising delivers exactly four envelopes. -/
theorem C5_stream_error_is_terminal (outs : List Value) (e : Exc)
    (job : List (String × Value)) (hid : hasKey job "id" = true) :
    run_job_generator (fun _ => (outs, some e)) job =
        (outs.map (fun v => Value.dict [("output", v)]) ++ [stream_error_envelope e], none) ∧
      (run_job_generator (fun _ => (outs, some e)) job).1.length = outs.length + 1 ∧
      run_job_generator (fun _ => ([Value.int 1, Value.int 2, Value.int 3], some e)) job =
        ([Value.dict [("output", Value.int 1)], Value.dict [("output", Value.int 2)],
          Value.dict [("output", Value.int 3)], stream_error_envelope e], none) := by
  have h1 : run_job_generator (fun _ => (outs, some e)) job =
      (outs.map (fun v => Value.dict [("output", v)]) ++ [stream_error_envelope e], none) := by
    simp [run_job_generator, hid]
  refine ⟨h1, ?_, ?_⟩
  · rw [h1]
    simp
  · simp [run_job_generator, hid]

/-- Witness for C5 at the producer yielding 1, 2, 3 and then raising. -/
theorem C5_stream_error_is_terminal_witness :
    hasKey job0 "id" = true ∧
      (run_job_generator (fun _ => ([Value.int 1, Value.int 2, Value.int 3], some exc0)) job0 =
          ([Value.int 1, Value.int 2, Value.int 3].map (fun v => Value.dict [("output", v)]) ++
            [stream_error_envelope exc0], none) ∧
        (run_job_generator (fun _ => ([Value.int 1, Value.int 2, Value.int 3], some exc0))
          job0).1.length = [Value.int 1, Value.int 2, Value.int 3].length + 1 ∧
        run_job_generator (fun _ => ([Value.int 1, Value.int 2, Value.int 3], some exc0)) job0 =
          ([Value.dict [("output", Value.int 1)], Value.dict [("output", Value.int 2)],
            Value.dict [("output", Value.int 3)], stream_error_envelope exc0], none)) :=
  ⟨rfl, C5_stream_error_is_terminal [Value.int 1, Value.int 2, Value.int 3] exc0 job0 rfl⟩

/-- C6: a 200 poll response parsing to an object that is missing `id`, missing
`input`, or holds null at either, is never surfaced as a job: the response is
classified as yielding no job, with retry the loop moves on to the remaining
responses, and without retry the acquirer returns absent. -/
theorem C6_malformed_poll_discarded (es : List (String × Value)) (rest : List PollResponse)
    (hbad : pyGet es "id" = Value.null ∨ pyGet es "input" = Value.null) :
    poll_step (PollResponse.http 200 (Except.ok (Value.dict es))) = StepResult.noJob ∧
      get_job true (PollResponse.http 200 (Except.ok (Value.dict es)) :: rest) =
        (get_job true rest).map (fun p => (p.1, p.2 + 1)) ∧
      get_job false (PollResponse.http 200 (Except.ok (Value.dict es)) :: rest) =
        Except.ok (none, 1) := by
  have hcond : (isNull (pyGet es "id") || isNull (pyGet es "input")) = true := by
    rcases hbad with h | h <;> simp [isNull_eq_true, h]
  have hstep : poll_step (PollResponse.http 200 (Except.ok (Value.dict es))) =
      StepResult.noJob := by
    simp [poll_step, hcond]
  refine ⟨hstep, ?_, ?_⟩
  · simp only [get_job, hstep, if_true]
    cases hg : get_job true rest with
    | ok p =>
      obtain ⟨a, b⟩ := p
      simp [Except.map]
    | error m => simp [Except.map]
  · simp [get_job, hstep]

/-- Witness for C6 at an object missing `id`, with an empty remaining trace. -/
theorem C6_malformed_poll_discarded_witness :
    (pyGet [("input", Value.int 5)] "id" = Value.null ∨
      pyGet [("input", Value.int 5)] "input" = Value.null) ∧
      (poll_step (PollResponse.http 200 (Except.ok (Value.dict [("input", Value.int 5)]))) =
          StepResult.noJob ∧
        get_job true [PollResponse.http 200 (Except.ok (Value.dict [("input", Value.int 5)]))] =
          (get_job true []).map (fun p => (p.1, p.2 + 1)) ∧
        get_job false [PollResponse.http 200 (Except.ok (Value.dict [("input", Value.int 5)]))] =
          Except.ok (none, 1)) :=
  ⟨Or.inl rfl, C6_malformed_poll_discarded [("input", Value.int 5)] [] (Or.inl rfl)⟩

/-- C7: without retry a single 204 (no content) response makes the acquirer return
absent at once, issuing exactly one poll request whatever responses would follow. -/
theorem C7_no_retry_single_204 (body : Except Exc Value) (rest : List PollResponse) :
    get_job false (PollResponse.http 204 body :: rest) = Except.ok (none, 1) := by
  simp [get_job, poll_step]

end RpJob
